import Mathlib

/-!
Verification of the Veda healthcare chat backend against its specification.

The definitions below are a shallow embedding of the Python sources:
  backend/app/services/moderation.py      (ModerationService)
  backend/app/services/llm_provider.py    (LLMProvider pipeline)
  backend/app/services/chat_manager.py    (ChatManager, StreamCache)
  backend/app/api/routers/stream.py       (WebSocket resume handling)

Strings are modelled by Lean `String`/`List Char`; external I/O calls
(model host, transcription, retrieval, database) are modelled by explicit
outcome parameters (`Except`), and mutable service state (moderation
statistics, the message store, the stream cache) is passed explicitly.
-/

namespace Veda

/-! ## String helpers modelling Python primitives -/

/-- Model of the regex word-character class seen by the compiled patterns
(`\w` restricted to the ASCII range that all configured terms use):
letters, digits and underscore. -/
def isWordChar (c : Char) : Bool :=
  c.isAlphanum || c == '_'

/-- Membership in the character set stripped by Python `str.strip()`. -/
def pyIsSpace (c : Char) : Bool :=
  c.isWhitespace

/-- Python `str.strip()`: drop leading and trailing whitespace. -/
def pyStrip (l : List Char) : List Char :=
  ((l.dropWhile pyIsSpace).reverse.dropWhile pyIsSpace).reverse

/-- Python `str.lower()` on the character list (ASCII model). -/
def lowerChars (l : List Char) : List Char :=
  l.map Char.toLower

/-- Python `str.lower()` on a `String`. -/
def lowerStr (s : String) : String :=
  ⟨lowerChars s.data⟩

/-- The character at index `i` is a word character; out of range counts
as a non-word position (string edge). -/
def wordAt (l : List Char) (i : Nat) : Bool :=
  match l.get? i with
  | some c => isWordChar c
  | none => false

/-- The regex assertion for a word boundary at gap position `i`, i.e. between
characters `i - 1` and `i`: exactly one side is a word character. -/
def boundaryAt (l : List Char) (i : Nat) : Bool :=
  (if i = 0 then false else wordAt l (i - 1)) != wordAt l i

/-- The pattern built by `ModerationService._compile_patterns`
(a word boundary, the escaped keyword, a word boundary) matches the content
at position `i`. -/
def matchAt (l kw : List Char) (i : Nat) : Bool :=
  boundaryAt l i && ((l.drop i).take kw.length == kw) && boundaryAt l (i + kw.length)

/-- The compiled pattern for `kw` matches somewhere in `l`
(`re.findall` returns a non-empty list exactly when this holds). -/
def termMatches (l kw : List Char) : Bool :=
  (List.range (l.length + 1)).any fun i => matchAt l kw i

/-! ## ModerationService (backend/app/services/moderation.py) -/

/-- The four severity tiers of `moderation_rules.json`. -/
inductive Severity where
  | high
  | medium
  | low
  | medical_emergency

deriving instance DecidableEq, Repr for Severity

/-- The moderation actions carried by a `ModerationResult`. -/
inductive Action where
  | allow
  | flag
  | block

deriving instance DecidableEq, Repr for Action

/-- `ModerationResult` (the `metadata` and `timestamp` fields, which are
logging-only, are omitted). -/
structure ModerationResult where
  is_safe : Bool := true
  severity : Option Severity := none
  matched_keywords : List String := []
  action : Action := .allow
  message : Option String := none

deriving instance DecidableEq, Repr for ModerationResult

/-- The rule dictionary loaded from `moderation_rules.json`: one term list
per severity tier. -/
structure Rules where
  high : List String
  medium : List String
  low : List String
  medical_emergency : List String

deriving instance DecidableEq, Repr for Rules

/-- The empty rule sets substituted by `_load_rules` on any load failure. -/
def emptyRules : Rules :=
  ⟨[], [], [], []⟩

/-- The `self.stats` counter dictionary of `ModerationService`. -/
structure Stats where
  total_checks : Nat
  blocked_messages : Nat
  flagged_messages : Nat
  high_severity : Nat
  medium_severity : Nat
  low_severity : Nat
  medical_emergency : Nat

deriving instance DecidableEq, Repr for Stats

/-- The ways `_load_rules` can fail: missing file, invalid JSON, anything else. -/
inductive LoadError where
  | fileNotFound
  | jsonDecodeError
  | otherError

/-- `ModerationService._load_rules`: the file-read/parse outcome is passed in;
every failure branch returns the empty tier sets instead of raising. -/
def load_rules : Except LoadError Rules → Rules
  | .ok r => r
  | .error _ => emptyRules

/-- Term list of one tier. -/
def Rules.keywordsFor (r : Rules) : Severity → List String
  | .high => r.high
  | .medium => r.medium
  | .low => r.low
  | .medical_emergency => r.medical_emergency

/-- `ModerationService._check_severity_level`: the keywords of the tier whose
compiled pattern (lower-cased, boundary-anchored) matches the content.
`findall` duplicates for repeated occurrences are collapsed; emptiness of the
returned list agrees with the source. -/
def check_severity_level (r : Rules) (content : List Char) (sev : Severity) :
    List String :=
  ((r.keywordsFor sev).map lowerStr).filter fun kw => termMatches content kw.data

/-- The iteration order of the `for severity in [...]` loop in
`moderate_content` — as written in the source. -/
def severityCheckOrder : List Severity :=
  [.high, .medium, .low, .medical_emergency]

/-- First tier of `order` with a non-empty keyword match, with its matches. -/
def firstTierMatch (r : Rules) (content : List Char) :
    List Severity → Option (Severity × List String)
  | [] => none
  | sev :: rest =>
    let m := check_severity_level r content sev
    if m.isEmpty then firstTierMatch r content rest else some (sev, m)

/-- `ModerationService._create_result_for_severity`. -/
def create_result_for_severity (sev : Severity) (matched : List String) :
    ModerationResult :=
  match sev with
  | .high =>
    { is_safe := false, severity := some .high, matched_keywords := matched,
      action := .block,
      message := some "Content blocked due to high-risk keywords" }
  | .medical_emergency =>
    { is_safe := true, severity := some .medical_emergency,
      matched_keywords := matched, action := .flag,
      message := some "Medical emergency keywords detected - prioritize response" }
  | .medium =>
    { is_safe := true, severity := some .medium, matched_keywords := matched,
      action := .flag, message := some "Content flagged for review" }
  | .low =>
    { is_safe := true, severity := some .low, matched_keywords := matched,
      action := .allow, message := some "Content allowed with warning logged" }

/-- `ModerationService._update_stats`. -/
def update_stats (sev : Severity) (act : Action) (s : Stats) : Stats :=
  let s1 :=
    if act = .block then { s with blocked_messages := s.blocked_messages + 1 }
    else if act = .flag then { s with flagged_messages := s.flagged_messages + 1 }
    else s
  match sev with
  | .high => { s1 with high_severity := s1.high_severity + 1 }
  | .medium => { s1 with medium_severity := s1.medium_severity + 1 }
  | .low => { s1 with low_severity := s1.low_severity + 1 }
  | .medical_emergency => { s1 with medical_emergency := s1.medical_emergency + 1 }

/-- An allow/safe result with the given message. -/
def allowResult (msg : String) : ModerationResult :=
  { is_safe := true, action := .allow, message := some msg }

/-- `ModerationService.moderate_content`: the service state (enabled flag,
rules, statistics) is explicit; returns the result and the updated
statistics. -/
def moderate_content (enabled : Bool) (r : Rules) (stats : Stats)
    (content : String) : ModerationResult × Stats :=
  if !enabled then (allowResult "Moderation disabled", stats)
  else if content.data = [] || pyStrip content.data = [] then
    (allowResult "Empty content", stats)
  else
    let stats1 := { stats with total_checks := stats.total_checks + 1 }
    let normalized := pyStrip (lowerChars content.data)
    match firstTierMatch r normalized severityCheckOrder with
    | some (sev, kws) =>
      let res := create_result_for_severity sev kws
      (res, update_stats sev res.action stats1)
    | none => (allowResult "Content passed moderation checks", stats1)

/-- `ModerationService.get_safe_response_for_blocked_content`. -/
def get_safe_response_for_blocked_content : Option Severity → String
  | some .high =>
    "I\x27m not able to respond to that type of content. If you\x27re experiencing thoughts of self-harm or are in crisis, please reach out to a mental health professional or crisis hotline immediately. For medical emergencies, call 911. I\x27m here to help with general health information and questions."
  | some .medical_emergency =>
    "⚠️ **MEDICAL EMERGENCY DETECTED** ⚠️\n\nIf you are experiencing a medical emergency, please:\n• Call 911 immediately\n• Go to the nearest emergency room\n• Contact your healthcare provider\n\nI cannot provide emergency medical care. Please seek immediate professional help."
  | _ =>
    "I understand you may be frustrated, but I\x27d like to keep our conversation respectful and focused on helping with your health questions. How can I assist you with medical information today?"

/-- The fixed emergency-resources block of
`ModerationService.add_emergency_resources_to_response` (the same literal is
inlined in `process_pipeline_stream`). -/
def emergencyResources : String :=
  "\n\n🆘 **Emergency Resources:**\n• Emergency: 911\n• Suicide Prevention Lifeline: 988\n• Crisis Text Line: Text HOME to 741741\n• Poison Control: 1-800-222-1222"

/-- `ModerationService.add_emergency_resources_to_response`. -/
def add_emergency_resources_to_response (response : String) : String :=
  response ++ emergencyResources

/-! ## LLMProvider pipeline (backend/app/services/llm_provider.py)

External model calls are modelled by their outcomes, carried in a
`PipelineEnv`: each `Except Unit _` value is the result of the corresponding
awaited call (`.error` = the call raised). The embedding covers the
production path (`use_dev_mode = False`). -/

/-- Environment of one pipeline run: configuration flags, moderation state
and the outcomes of the external model calls. -/
structure PipelineEnv where
  enabled : Bool
  rules : Rules
  skip_summarizer : Bool
  skip_rag : Bool
  rag_available : Bool
  summarizeCall : String → Except Unit String
  retrieveCall : String → Except Unit (List String)
  generateCall : String → List String → Except Unit String
  generateStreamCall : String → List String → List String × Bool

/-- The placeholder substituted when transcription raises
(`LLMProvider._process_audio_input`). -/
def transcriptionFailedPlaceholder : String :=
  "[Audio transcription failed]"

/-- `LLMProvider._process_audio_input`: every exception is caught and the
placeholder returned. -/
def process_audio_input : Except Unit String → String
  | .ok t => t
  | .error _ => transcriptionFailedPlaceholder

/-- `LLMProvider._process_image_input`: description on success, fixed fallback
text when the vision call raises. -/
def process_image_input : Except Unit String → String
  | .ok d => "Image analysis: " ++ d
  | .error _ => "Image analysis: Unable to process the provided image."

/-- `LLMProvider._combine_text_inputs` (Python truthiness: `None` and the
empty string both select the new text alone). -/
def combine_text_inputs (existing : Option String) (new : String) : String :=
  match existing with
  | none => new
  | some e => if e = "" then new else e ++ "\n\n" ++ new

/-- The fixed healthcare disclaimer `self.disclaimer` appended by the
finalization step. -/
def disclaimer : String :=
  "\n\n⚠️ **Medical Disclaimer**: This information is for educational purposes only and should not replace professional medical advice. Please consult with a healthcare provider for medical concerns."

/-- Fallback answer of `_generate_final_response` when the generation call
raises. -/
def generationFallback : String :=
  "I apologize, but I\x27m experiencing technical difficulties. Please try again later or consult with a healthcare professional."

/-- Replacement used by `process_pipeline` when output moderation blocks. -/
def blockedOutputReplacement : String :=
  "I apologize, but I cannot provide a response to that query. Please rephrase your question or ask about a different health topic."

/-- Note streamed by `process_pipeline_stream` when output moderation blocks. -/
def streamModeratedNote : String :=
  "\n\n[Response moderated for safety]"

/-- Apology chunk yielded by the outer handler of `process_pipeline_stream`. -/
def streamErrorApology : String :=
  "I apologize, but I encountered an error while processing your request. Please try again or consult with a healthcare professional."

/-- Substring test (Python `in` on strings). -/
def containsSub (l pat : List Char) : Bool :=
  (List.range (l.length + 1)).any fun i => decide ((l.drop i).take pat.length = pat)

/-- `LLMProvider._handle_pipeline_error` (note: it appends the disclaimer). -/
def handle_pipeline_error (err : String) : String :=
  let base := "I apologize, but I encountered an error while processing your request. "
  let base :=
    if containsSub (lowerChars err.data) "audio".data then
      base ++ "There was an issue processing your audio input. "
    else if containsSub (lowerChars err.data) "image".data then
      base ++ "There was an issue processing your image input. "
    else base
  base ++ "Please try again or consult with a healthcare professional for assistance." ++ disclaimer

/-- `LLMProvider._summarize_text`: skipped below 500 characters or by flag;
a raising call falls back to the unsummarized text. -/
def summarize_text (env : PipelineEnv) (text : String) : String :=
  if env.skip_summarizer || text.length < 500 then text
  else
    match env.summarizeCall text with
    | .ok s => s
    | .error _ => text

/-- `LLMProvider._retrieve_context`: empty list when skipped, unavailable, or
the retrieval call raises. -/
def retrieve_context (env : PipelineEnv) (query : String) : List String :=
  if env.skip_rag || !env.rag_available then []
  else
    match env.retrieveCall query with
    | .ok docs => docs
    | .error _ => []

/-- `LLMProvider._generate_final_response`: the only fallback is the fixed
apology (the in-call default answer is part of the `.ok` outcome). -/
def generate_final_response (env : PipelineEnv) (query : String)
    (docs : List String) : String :=
  match env.generateCall query docs with
  | .ok s => s
  | .error _ => generationFallback

/-- `LLMProvider._stream_final_response`: yields the generation chunks; if the
stream raises it yields the fixed apology chunk and ends. -/
def stream_final_response (env : PipelineEnv) (query : String)
    (docs : List String) : List String :=
  let (chunks, fails) := env.generateStreamCall query docs
  chunks ++ if fails then [generationFallback] else []

/-- Steps 1-2 of both pipelines: fold the audio transcript and the image
description into the text input. -/
def pipeline_input_text (textIn : Option String)
    (audioData imageData : Option (Except Unit String)) : Option String :=
  let t1 :=
    match audioData with
    | some a => some (combine_text_inputs textIn (process_audio_input a))
    | none => textIn
  match imageData with
  | some im => some (combine_text_inputs t1 (process_image_input im))
  | none => t1

/-- Python truthiness of the optional text (`if not text: raise ValueError`). -/
def strFalsy : Option String → Bool
  | none => true
  | some s => decide (s = "")

/-- The `ValueError` message raised when no text is available. -/
def errNoText : String :=
  "No text provided for processing"

/-- `LLMProvider.process_pipeline` (production path): returns the answer and
the updated moderation statistics. -/
def process_pipeline (env : PipelineEnv) (stats : Stats)
    (audioData imageData : Option (Except Unit String)) (textIn : Option String) :
    String × Stats :=
  let t := pipeline_input_text textIn audioData imageData
  if strFalsy t then (handle_pipeline_error errNoText, stats)
  else
    let text := t.getD ""
    let mod := moderate_content env.enabled env.rules stats text
    if mod.1.action = .block then
      (get_safe_response_for_blocked_content mod.1.severity, mod.2)
    else
      let summary := summarize_text env text
      let docs := retrieve_context env summary
      let finalResponse := generate_final_response env summary docs
      let outMod := moderate_content env.enabled env.rules mod.2 finalResponse
      let fr1 :=
        if outMod.1.action = .block then blockedOutputReplacement else finalResponse
      let fr2 :=
        if mod.1.severity = some .medical_emergency then
          add_emergency_resources_to_response fr1
        else fr1
      (fr2 ++ disclaimer, outMod.2)

/-- Concatenation of yielded chunks (the full streamed answer). -/
def joinChunks (l : List String) : String :=
  l.foldr (fun a b => a ++ b) ""

/-- `LLMProvider.process_pipeline_stream` (production path): the list of
yielded chunks, in order, and the updated moderation statistics. -/
def process_pipeline_stream (env : PipelineEnv) (stats : Stats)
    (audioData imageData : Option (Except Unit String)) (textIn : Option String) :
    List String × Stats :=
  let t := pipeline_input_text textIn audioData imageData
  if strFalsy t then ([streamErrorApology, disclaimer], stats)
  else
    let text := t.getD ""
    let mod := moderate_content env.enabled env.rules stats text
    if mod.1.action = .block then
      ([get_safe_response_for_blocked_content mod.1.severity], mod.2)
    else
      let summary := summarize_text env text
      let docs := retrieve_context env summary
      let genYields := stream_final_response env summary docs
      let full := joinChunks genYields
      let outMod := moderate_content env.enabled env.rules mod.2 full
      let tail1 := if outMod.1.action = .block then [streamModeratedNote] else []
      let tail2 :=
        if mod.1.severity = some .medical_emergency then [emergencyResources] else []
      (genYields ++ tail1 ++ tail2 ++ [disclaimer], outMod.2)

/-! ## ChatManager and StreamCache (backend/app/services/chat_manager.py)
    and the resume handler (backend/app/api/routers/stream.py)

The database is modelled as an explicit state (conversation rows, message
rows in insertion order, and a counter standing in for `uuid4` freshness).
The process-wide `stream_cache` is threaded alongside so that every mutation
point of it is visible. -/

/-- The metadata map attached to a `Message` row (the keys the code writes). -/
structure Metadata where
  audioAttached : Bool := false
  audioSize : Nat := 0
  imageAttached : Bool := false
  imageSize : Nat := 0
  client_message_id : Option String := none
  disclaimer : Bool := false

deriving instance DecidableEq, Repr for Metadata

/-- A persisted `Message` row. -/
structure Msg where
  id : Nat
  conversation_id : String
  sender : String
  content : String
  status : String
  message_metadata : Metadata

deriving instance DecidableEq, Repr for Msg

/-- A persisted `Conversation` row (the fields the chat flow touches). -/
structure Conversation where
  id : String
  user_id : String
  messages_count : Nat

deriving instance DecidableEq, Repr for Conversation

/-- Database state: conversation rows, message rows in insertion order, and
the next fresh id (standing in for `uuid4`). -/
structure DBState where
  conversations : List Conversation
  msgs : List Msg
  next_id : Nat

deriving instance DecidableEq, Repr for DBState

/-- One `StreamCache` entry value: accumulated content and expiry time. -/
structure CacheVal where
  content : String
  expires : Nat

deriving instance DecidableEq, Repr for CacheVal

/-- The `StreamCache._cache` dict, keyed by the `(conversation_id, message_id)`
pair that the code joins into `f"cid:mid"`. -/
def Cache := List ((String × String) × CacheVal)

deriving instance DecidableEq, Repr for Cache

/-- `StreamCache.store_stream` (dict assignment replaces the key). -/
def store_stream (c : Cache) (cid mid content : String) (now ttl : Nat) : Cache :=
  ((cid, mid), ⟨content, now + ttl⟩) ::
    List.filter (fun e => decide (e.1 ≠ (cid, mid))) c

/-- `StreamCache.get_stream`: live entry content, deleting an expired entry. -/
def get_stream (c : Cache) (cid mid : String) (now : Nat) :
    Option String × Cache :=
  match List.find? (fun e => decide (e.1 = (cid, mid))) c with
  | some e =>
    if now < e.2.expires then (some e.2.content, c)
    else (none, List.filter (fun x => decide (x.1 ≠ (cid, mid))) c)
  | none => (none, c)

/-- `StreamCache.cleanup_expired`: evict every entry with `now ≥ expires`. -/
def cleanup_expired (c : Cache) (now : Nat) : Cache :=
  List.filter (fun e => decide (now < e.2.expires)) c

/-- Outbound WebSocket frames (`WebSocketStreamer` / `stream.py`). -/
inductive Frame where
  | chunk (messageId conversationId data : String)
  | done (messageId conversationId content : String)
  | error (conversationId message : String)
  | pong
  | resume_ack (conversationId : String)

deriving instance DecidableEq, Repr for Frame

/-- `handle_resume_request` (stream.py): replay a live cache entry as one
`chunk` plus `done`, otherwise acknowledge with `resume_ack` only. -/
def handle_resume_request (cache : Cache) (now : Nat) (conversation_id : String)
    (lastMessageId : Option String) : List Frame × Cache :=
  match lastMessageId with
  | some mid =>
    if mid = "" then ([.resume_ack conversation_id], cache)
    else
      let r := get_stream cache conversation_id mid now
      match r.1 with
      | some content =>
        ([.chunk mid conversation_id content, .done mid conversation_id content], r.2)
      | none => ([.resume_ack conversation_id], r.2)
  | none => ([.resume_ack conversation_id], cache)

/-- Python truthiness of the optional client message id. -/
def cmidTruthy : Option String → Bool
  | none => false
  | some s => decide (s ≠ "")

/-- `ChatManager._create_user_message`. The status is the constant `"sent"`
the source writes, independent of any moderation verdict. -/
def create_user_message (st : DBState) (conversation_id : String)
    (textIn : Option String) (audioData imageData : Option Nat)
    (client_message_id : Option String) : Msg × DBState :=
  let content := textIn.getD ""
  let audioPresent := match audioData with | some n => n ≠ 0 | none => false
  let imagePresent := match imageData with | some n => n ≠ 0 | none => false
  let content := if audioPresent && decide (content = "") then "[Voice message]" else content
  let content := if imagePresent && decide (content = "") then "[Image message]" else content
  let meta : Metadata :=
    { audioAttached := audioPresent
      audioSize := if audioPresent then audioData.getD 0 else 0
      imageAttached := imagePresent
      imageSize := if imagePresent then imageData.getD 0 else 0
      client_message_id :=
        if cmidTruthy client_message_id then client_message_id else none }
  let m : Msg :=
    { id := st.next_id, conversation_id := conversation_id, sender := "user",
      content := content, status := "sent", message_metadata := meta }
  (m, { st with msgs := st.msgs ++ [m], next_id := st.next_id + 1 })

/-- `ChatManager._create_assistant_message`: `message_id` is the pre-allocated
streaming id, or fresh for the batch path. -/
def create_assistant_message (st : DBState) (conversation_id content : String)
    (message_id : Option Nat) (status : String) : Msg × DBState :=
  match message_id with
  | some mid =>
    let m : Msg :=
      { id := mid, conversation_id := conversation_id, sender := "assistant",
        content := content, status := status,
        message_metadata := { disclaimer := true } }
    (m, { st with msgs := st.msgs ++ [m] })
  | none =>
    let m : Msg :=
      { id := st.next_id, conversation_id := conversation_id,
        sender := "assistant", content := content, status := status,
        message_metadata := { disclaimer := true } }
    (m, { st with msgs := st.msgs ++ [m], next_id := st.next_id + 1 })

/-- `ChatManager._check_duplicate_message`: first message of the conversation
whose metadata carries this client message id. -/
def check_duplicate_message (st : DBState) (conversation_id client_message_id : String) :
    Option Msg :=
  List.find?
    (fun m => decide (m.conversation_id = conversation_id) &&
      decide (m.message_metadata.client_message_id = some client_message_id))
    st.msgs

/-- `ChatManager._update_conversation_stats`: recount the conversation's
messages and store the count on the conversation row. -/
def update_conversation_stats (st : DBState) (conversation_id : String) : DBState :=
  let cnt :=
    (List.filter (fun m => decide (m.conversation_id = conversation_id)) st.msgs).length
  { st with
    conversations :=
      st.conversations.map fun c =>
        if c.id = conversation_id then { c with messages_count := cnt } else c }

/-- The error note sent and raised on a streaming failure. -/
def streamInterruptedError : String :=
  "Stream interrupted due to technical difficulties"

/-- The note appended to the persisted partial content. -/
def interruptionNote : String :=
  "\n\n[Response incomplete due to technical error]"

/-- `ChatManager._handle_streaming_response`: the provider stream is the list
of chunks delivered before it either completes (`fails = false`) or raises
(`fails = true`). Returns the frames sent, the new database state, the
stream cache (which this code never touches), and the function's outcome. -/
def handle_streaming_response (st : DBState) (cache : Cache)
    (conversation_id : String) (assistant_message_id : Nat)
    (chunks : List String) (fails : Bool) :
    List Frame × DBState × Cache × Except String String :=
  let mid := toString assistant_message_id
  let full := joinChunks chunks
  let chunkFrames := chunks.map fun c => Frame.chunk mid conversation_id c
  if fails then
    let frames := chunkFrames ++ [Frame.error conversation_id streamInterruptedError]
    if full = "" then (frames, st, cache, .error streamInterruptedError)
    else
      let r := create_assistant_message st conversation_id
        (full ++ interruptionNote) (some assistant_message_id) "incomplete"
      (frames, r.2, cache, .error streamInterruptedError)
  else
    let frames := chunkFrames ++ [Frame.done mid conversation_id full]
    let r := create_assistant_message st conversation_id full
      (some assistant_message_id) "sent"
    (frames, r.2, cache, .ok full)

/-- How the assistant response of one turn is produced: `batch` carries the
`process_pipeline` answer, `streaming` the `process_pipeline_stream` chunks
and whether the stream raised. -/
inductive Responder where
  | batch (response : String)
  | streaming (chunks : List String) (fails : Bool)

/-- The dictionary returned by `ChatManager.handle_user_message`. -/
inductive HandleOutcome where
  | dup (message_id : Nat)
  | answered (user_message_id assistant_message_id : Nat) (response : String)
      (conversation_id : String)

deriving instance DecidableEq, Repr for HandleOutcome

/-- `ChatManager.handle_user_message`: ownership check, idempotency check,
user-message persistence, response generation, assistant-message persistence,
conversation stats update. Raised exceptions are `.error`. -/
def handle_user_message (st : DBState) (cache : Cache)
    (conversation_id user_id : String) (textIn : Option String)
    (audioData imageData : Option Nat) (responder : Responder)
    (client_message_id : Option String) :
    List Frame × DBState × Cache × Except String HandleOutcome :=
  match List.find? (fun c => decide (c.id = conversation_id)) st.conversations with
  | none => ([], st, cache, .error "Conversation not found or access denied")
  | some conv =>
    if conv.user_id ≠ user_id then
      ([], st, cache, .error "Conversation not found or access denied")
    else
      let dup :=
        match client_message_id with
        | some cmid =>
          if cmid = "" then none else check_duplicate_message st conversation_id cmid
        | none => none
      match dup with
      | some existing => ([], st, cache, .ok (.dup existing.id))
      | none =>
        let r1 := create_user_message st conversation_id textIn audioData imageData
          client_message_id
        let um := r1.1
        let st1 := r1.2
        match responder with
        | .streaming chunks fails =>
          let assistant_message_id := st1.next_id
          let st2 := { st1 with next_id := st1.next_id + 1 }
          let r2 := handle_streaming_response st2 cache conversation_id
            assistant_message_id chunks fails
          match r2.2.2.2 with
          | .error e => (r2.1, r2.2.1, r2.2.2.1, .error e)
          | .ok full =>
            let st3 := update_conversation_stats r2.2.1 conversation_id
            (r2.1, st3, r2.2.2.1,
              .ok (.answered um.id assistant_message_id full conversation_id))
        | .batch response =>
          let r2 := create_assistant_message st1 conversation_id response none "sent"
          let st3 := update_conversation_stats r2.2 conversation_id
          ([], st3, cache,
            .ok (.answered um.id r2.1.id response conversation_id))

/-! ## General lemmas -/

/-- Zeroed moderation statistics (the constructor state of the service). -/
def stats0 : Stats :=
  ⟨0, 0, 0, 0, 0, 0, 0⟩

/-- `Char.toLower` fixes whitespace characters. -/
theorem toLower_whitespace {c : Char} (h : pyIsSpace c = true) :
    Char.toLower c = c := by
  simp only [pyIsSpace, Char.isWhitespace, Bool.or_eq_true, decide_eq_true_eq] at h
  rcases h with ((h | h) | h) | h <;> subst h <;> decide

/-- An all-whitespace character list strips to nothing. -/
theorem pyStrip_eq_nil_of_all {l : List Char} (h : ∀ c ∈ l, pyIsSpace c) :
    pyStrip l = [] := by
  unfold pyStrip
  rw [List.dropWhile_eq_nil_iff.2 h]
  simp

/-- A list that strips to nothing is all whitespace. -/
theorem all_space_of_pyStrip_eq_nil {l : List Char} (h : pyStrip l = []) :
    ∀ c ∈ l, pyIsSpace c := by
  unfold pyStrip at h
  rw [List.reverse_eq_nil_iff, List.dropWhile_eq_nil_iff] at h
  intro c hc
  rw [← List.takeWhile_append_dropWhile (p := pyIsSpace) (l := l)] at hc
  rcases List.mem_append.1 hc with hc | hc
  · exact List.mem_takeWhile_imp hc
  · exact h c (List.mem_reverse.2 hc)

/-! ## C10 — blank input short-circuit -/

/-- C10: for empty or whitespace-only input, `moderate_content` answers
allow/safe with no severity and no matches, and leaves every statistics
counter (including `total_checks`) unchanged. -/
theorem blank_content_no_stats_change (enabled : Bool) (r : Rules) (stats : Stats)
    (content : String) (h : ∀ c ∈ content.data, pyIsSpace c) :
    (moderate_content enabled r stats content).2 = stats ∧
    (moderate_content enabled r stats content).1.action = .allow ∧
    (moderate_content enabled r stats content).1.is_safe = true ∧
    (moderate_content enabled r stats content).1.severity = none ∧
    (moderate_content enabled r stats content).1.matched_keywords = [] := by
  have hs : pyStrip content.data = [] := pyStrip_eq_nil_of_all h
  unfold moderate_content
  cases enabled with
  | false => simp [allowResult]
  | true => simp [hs, allowResult]

/-- C10 witness: a concrete whitespace-only input. -/
theorem blank_content_no_stats_change_witness :
    (moderate_content true emptyRules stats0 "  ").2 = stats0 ∧
    (moderate_content true emptyRules stats0 "  ").1.action = .allow ∧
    (moderate_content true emptyRules stats0 "  ").1.is_safe = true ∧
    (moderate_content true emptyRules stats0 "  ").1.severity = none ∧
    (moderate_content true emptyRules stats0 "  ").1.matched_keywords = [] :=
  blank_content_no_stats_change true emptyRules stats0 "  " (by decide)

/-! ## C7 — fail-open on a missing or corrupt rule source -/

/-- C7: any rule-load failure yields the empty tier sets, and with those the
screener verdicts allow/safe for every input — it fails open instead of
crashing. -/
theorem load_failure_fails_open (e : LoadError) (enabled : Bool) (stats : Stats)
    (content : String) :
    load_rules (.error e) = emptyRules ∧
    (moderate_content enabled (load_rules (.error e)) stats content).1.action = .allow ∧
    (moderate_content enabled (load_rules (.error e)) stats content).1.is_safe = true := by
  refine ⟨rfl, ?_⟩
  show (moderate_content enabled emptyRules stats content).1.action = .allow ∧
    (moderate_content enabled emptyRules stats content).1.is_safe = true
  unfold moderate_content
  cases enabled with
  | false => simp [allowResult]
  | true =>
    by_cases hb1 : content.data = []
    · simp [hb1, allowResult]
    · by_cases hb2 : pyStrip content.data = []
      · simp [hb2, allowResult]
      · simp [hb1, hb2, firstTierMatch, severityCheckOrder, check_severity_level,
          Rules.keywordsFor, emptyRules, allowResult]

/-! ## C5 — user-message status is a constant, not verdict-derived -/

/-- C5 (code bug): `_create_user_message` stores the constant status `"sent"`
for every input — including a high-tier text such as
"I want to kill myself" — never a verdict-derived `blocked`/`flagged`. -/
theorem user_message_status_always_sent (st : DBState) (conversation_id : String)
    (textIn : Option String) (audioData imageData : Option Nat)
    (client_message_id : Option String) :
    (create_user_message st conversation_id textIn audioData imageData
        client_message_id).1.status = "sent" ∧
    (create_user_message st conversation_id (some "I want to kill myself") none none
        client_message_id).1.status = "sent" :=
  ⟨rfl, rfl⟩

/-! ## C1 — tier check order -/

/-- C1 counterexample: with an emergency term ("chest pain") and a medium term
("cocaine") both matching and no high term, the verdict severity is `medium`,
not `medical_emergency` — the source checks high → medium → low →
medical_emergency. -/
theorem moderation_tier_order_counterexample :
    ((moderate_content true ⟨[], ["cocaine"], [], ["chest pain"]⟩ stats0
        "I have chest pain and need cocaine").1.severity = some .medium) ∧
    (check_severity_level ⟨[], ["cocaine"], [], ["chest pain"]⟩
        (pyStrip (lowerChars "I have chest pain and need cocaine".data))
        .medical_emergency ≠ []) ∧
    (check_severity_level ⟨[], ["cocaine"], [], ["chest pain"]⟩
        (pyStrip (lowerChars "I have chest pain and need cocaine".data))
        .high = []) ∧
    some Severity.medium ≠ some Severity.medical_emergency := by
  refine ⟨by decide, by decide, by decide, by decide⟩

/-- Evaluation of `moderate_content` on enabled, non-blank content: the tier
loop decides the result. -/
theorem moderate_content_nonblank (r : Rules) (stats : Stats) (content : String)
    (h1 : ¬ content.data = []) (h2 : ¬ pyStrip content.data = []) :
    moderate_content true r stats content =
      (match firstTierMatch r (pyStrip (lowerChars content.data)) severityCheckOrder with
       | some (sev, kws) =>
         (create_result_for_severity sev kws,
          update_stats sev (create_result_for_severity sev kws).action
            { stats with total_checks := stats.total_checks + 1 })
       | none =>
         (allowResult "Content passed moderation checks",
          { stats with total_checks := stats.total_checks + 1 })) := by
  unfold moderate_content
  simp [h1, h2]

/-- C1 (amended): the tiers are checked in the source order high → medium →
low → medical_emergency, first match wins: a high match verdicts high/block
regardless of the other tiers (so text matching both a low and a high term
verdicts high/block), and with no high match a medium match verdicts
medium/flag even when an emergency term also matches. -/
theorem moderate_content_tier_priority (r : Rules) (stats : Stats)
    (content : String)
    (h1 : ¬ content.data = []) (h2 : ¬ pyStrip content.data = []) :
    ((check_severity_level r (pyStrip (lowerChars content.data)) .high ≠ []) →
      (moderate_content true r stats content).1 =
        create_result_for_severity .high
          (check_severity_level r (pyStrip (lowerChars content.data)) .high)) ∧
    ((check_severity_level r (pyStrip (lowerChars content.data)) .high = []) →
     (check_severity_level r (pyStrip (lowerChars content.data)) .medium ≠ []) →
      (moderate_content true r stats content).1 =
        create_result_for_severity .medium
          (check_severity_level r (pyStrip (lowerChars content.data)) .medium)) := by
  have hm := moderate_content_nonblank r stats content h1 h2
  constructor
  · intro hh
    rw [hm]
    simp [firstTierMatch, severityCheckOrder, List.isEmpty_iff, hh]
  · intro hh hmed
    rw [hm]
    simp [firstTierMatch, severityCheckOrder, List.isEmpty_iff, hh, hmed]

/-- C1 amended-claim witness: "I feel stupid and want to kill myself" matches
the low term "stupid" and the high term "kill myself" and verdicts
high/block. -/
theorem moderate_content_tier_priority_witness :
    ((check_severity_level ⟨["kill myself"], ["cocaine"], ["stupid"], ["chest pain"]⟩
        (pyStrip (lowerChars "I feel stupid and want to kill myself".data)) .high ≠ []) →
      (moderate_content true ⟨["kill myself"], ["cocaine"], ["stupid"], ["chest pain"]⟩
          stats0 "I feel stupid and want to kill myself").1 =
        create_result_for_severity .high
          (check_severity_level ⟨["kill myself"], ["cocaine"], ["stupid"], ["chest pain"]⟩
            (pyStrip (lowerChars "I feel stupid and want to kill myself".data)) .high)) ∧
    ((check_severity_level ⟨["kill myself"], ["cocaine"], ["stupid"], ["chest pain"]⟩
        (pyStrip (lowerChars "I feel stupid and want to kill myself".data)) .high = []) →
     (check_severity_level ⟨["kill myself"], ["cocaine"], ["stupid"], ["chest pain"]⟩
        (pyStrip (lowerChars "I feel stupid and want to kill myself".data)) .medium ≠ []) →
      (moderate_content true ⟨["kill myself"], ["cocaine"], ["stupid"], ["chest pain"]⟩
          stats0 "I feel stupid and want to kill myself").1 =
        create_result_for_severity .medium
          (check_severity_level ⟨["kill myself"], ["cocaine"], ["stupid"], ["chest pain"]⟩
            (pyStrip (lowerChars "I feel stupid and want to kill myself".data)) .medium)) :=
  moderate_content_tier_priority ⟨["kill myself"], ["cocaine"], ["stupid"], ["chest pain"]⟩
    stats0 "I feel stupid and want to kill myself" (by decide) (by decide)

/-! ## C6 — word-boundary, case-insensitive matching -/

/-- C6: matching is whole-word and case-insensitive: any case rendition of
"kill myself" is blocked as high severity under a high-tier term
"kill myself"; "I need a massage" is allowed and in particular never matches
the term "assault", while "an assault happened" does match it as a whole
word. -/
theorem term_matching_boundary_case_insensitive (s : String) (stats : Stats)
    (hlow : lowerChars s.data = "kill myself".data) :
    ((moderate_content true ⟨["kill myself", "assault"], [], [], []⟩ stats s).1.action
        = .block ∧
     (moderate_content true ⟨["kill myself", "assault"], [], [], []⟩ stats s).1.severity
        = some .high) ∧
    (moderate_content true ⟨["kill myself", "assault"], [], [], []⟩ stats0
        "I need a massage").1.action = .allow ∧
    termMatches (lowerChars "I need a massage".data) "assault".data = false ∧
    termMatches (lowerChars "an assault happened".data) "assault".data = true := by
  have hK : ¬ s.data = [] := by
    intro h0
    rw [h0] at hlow
    exact absurd hlow (by decide)
  have h2 : ¬ pyStrip s.data = [] := by
    intro h0
    have hsp := all_space_of_pyStrip_eq_nil h0
    have hmap : lowerChars s.data = s.data :=
      (List.map_congr_left fun c hc => toLower_whitespace (hsp c hc)).trans
        (List.map_id _)
    have hdat : s.data = "kill myself".data := hmap.symm.trans hlow
    have hk : ('k' : Char) ∈ s.data := by
      rw [hdat]; decide
    exact absurd (hsp 'k' hk) (by decide)
  have hm := moderate_content_nonblank ⟨["kill myself", "assault"], [], [], []⟩
    stats s hK h2
  have hft : firstTierMatch ⟨["kill myself", "assault"], [], [], []⟩
      (pyStrip "kill myself".data) severityCheckOrder =
      some (.high, ["kill myself"]) := by decide
  refine ⟨⟨?_, ?_⟩, by decide, by decide, by decide⟩ <;>
    · rw [hm, hlow, hft]
      rfl

/-- C6 witness: the upper-case rendition "KILL MYSELF". -/
theorem term_matching_boundary_case_insensitive_witness :
    ((moderate_content true ⟨["kill myself", "assault"], [], [], []⟩ stats0
        "KILL MYSELF").1.action = .block ∧
     (moderate_content true ⟨["kill myself", "assault"], [], [], []⟩ stats0
        "KILL MYSELF").1.severity = some .high) ∧
    (moderate_content true ⟨["kill myself", "assault"], [], [], []⟩ stats0
        "I need a massage").1.action = .allow ∧
    termMatches (lowerChars "I need a massage".data) "assault".data = false ∧
    termMatches (lowerChars "an assault happened".data) "assault".data = true :=
  term_matching_boundary_case_insensitive "KILL MYSELF" stats0 (by decide)

/-! ## C2 — resume replay (stream cache never populated) -/

/-- C2 (code bug): `_handle_streaming_response` never writes the stream cache
(no call to `store_stream` exists), so after any streamed turn starting from
an empty cache a resume is answered `resume_ack` only; the replay branch of
`handle_resume_request` itself is correct (chunk + done for a live entry,
ack after expiry). -/
theorem stream_cache_never_populated (st : DBState) (cache : Cache)
    (conversation_id : String) (assistant_message_id : Nat)
    (chunks : List String) (fails : Bool) (mid cid : String) (now : Nat) :
    (handle_streaming_response st cache conversation_id assistant_message_id
        chunks fails).2.2.1 = cache ∧
    handle_resume_request [] now cid (some mid) = ([.resume_ack cid], []) ∧
    handle_resume_request [(("c1", "m1"), ⟨"Hello wo", 100⟩)] 50 "c1" (some "m1") =
      ([.chunk "m1" "c1" "Hello wo", .done "m1" "c1" "Hello wo"],
        [(("c1", "m1"), ⟨"Hello wo", 100⟩)]) ∧
    handle_resume_request [(("c1", "m1"), ⟨"Hello wo", 100⟩)] 150 "c1" (some "m1") =
      ([.resume_ack "c1"], []) := by
  refine ⟨?_, ?_, by decide, by decide⟩
  · unfold handle_streaming_response
    cases fails
    · rfl
    · by_cases hj : joinChunks chunks = "" <;> simp [hj]
  · unfold handle_resume_request
    by_cases hm : mid = ""
    · simp [hm]
    · simp [hm, get_stream]

/-! ## C4 — idempotent retried sends -/

/-- A conversation-row update that preserves ids and owners preserves the
result of the ownership lookup. -/
theorem find_conversation_map (l : List Conversation) (cid : String)
    (f : Conversation → Conversation)
    (hid : ∀ c, (f c).id = c.id) (huser : ∀ c, (f c).user_id = c.user_id)
    {conv : Conversation}
    (h : List.find? (fun c => decide (c.id = cid)) l = some conv) :
    ∃ conv2, List.find? (fun c => decide (c.id = cid)) (l.map f) = some conv2 ∧
      conv2.user_id = conv.user_id := by
  induction l with
  | nil => simp at h
  | cons a t ih =>
    by_cases ha : a.id = cid
    · rw [List.find?_cons_of_pos _ (by simp [ha])] at h
      refine ⟨f a, ?_, ?_⟩
      · rw [List.map_cons, List.find?_cons_of_pos _ (by simp [hid, ha])]
      · rw [huser, Option.some_inj.1 h]
    · rw [List.find?_cons_of_neg _ (by simp [ha])] at h
      obtain ⟨conv2, h2, h3⟩ := ih h
      exact ⟨conv2, by rw [List.map_cons, List.find?_cons_of_neg _ (by simp [hid, ha])]; exact h2, h3⟩

/-- C4: with a fresh client message id, the first call persists exactly one
user+assistant pair (the user message carrying the client id), and a second
identical call returns the duplicate outcome with the first call's user
message id, leaving the state untouched. -/
theorem handle_user_message_idempotent (st : DBState) (cache : Cache)
    (conversation_id user_id : String) (textIn : Option String)
    (audioData imageData : Option Nat) (response : String) (cmid : String)
    (hconv : ∃ conv,
      List.find? (fun c => decide (c.id = conversation_id)) st.conversations =
        some conv ∧ conv.user_id = user_id)
    (hcmid : cmid ≠ "")
    (hfresh : check_duplicate_message st conversation_id cmid = none) :
    ∃ um am st1,
      handle_user_message st cache conversation_id user_id textIn audioData
          imageData (.batch response) (some cmid) =
        ([], st1, cache, .ok (.answered um.id am.id response conversation_id)) ∧
      st1.msgs = st.msgs ++ [um, am] ∧
      um.sender = "user" ∧ am.sender = "assistant" ∧
      um.message_metadata.client_message_id = some cmid ∧
      am.message_metadata.client_message_id = none ∧
      (List.filter
        (fun m => decide (m.conversation_id = conversation_id) &&
          decide (m.message_metadata.client_message_id = some cmid))
        st1.msgs).length = 1 ∧
      handle_user_message st1 cache conversation_id user_id textIn audioData
          imageData (.batch response) (some cmid) =
        ([], st1, cache, .ok (.dup um.id)) := by
  obtain ⟨conv, hfind, huser⟩ := hconv
  refine ⟨(create_user_message st conversation_id textIn audioData imageData
      (some cmid)).1,
    (create_assistant_message
      (create_user_message st conversation_id textIn audioData imageData
        (some cmid)).2 conversation_id response none "sent").1,
    update_conversation_stats
      (create_assistant_message
        (create_user_message st conversation_id textIn audioData imageData
          (some cmid)).2 conversation_id response none "sent").2 conversation_id,
    ?_, ?_, rfl, rfl, ?_, rfl, ?_, ?_⟩
  · unfold handle_user_message
    rw [hfind]
    dsimp only
    rw [if_neg (not_not_intro huser), if_neg hcmid, hfresh]
  · show (create_assistant_message
      (create_user_message st conversation_id textIn audioData imageData
        (some cmid)).2 conversation_id response none "sent").2.msgs = _
    simp [create_user_message, create_assistant_message, update_conversation_stats]
  · simp [create_user_message, cmidTruthy, hcmid]
  · -- exactly one message carries this client message id
    have hnil : List.filter
        (fun m => decide (m.conversation_id = conversation_id) &&
          decide (m.message_metadata.client_message_id = some cmid))
        st.msgs = [] := by
      rw [List.filter_eq_nil_iff]
      intro m hm
      have := List.find?_eq_none.1 hfresh m hm
      simpa using this
    show (List.filter _ (update_conversation_stats _ _).msgs).length = 1
    simp only [update_conversation_stats, create_assistant_message,
      create_user_message]
    rw [List.filter_append, List.filter_append, hnil]
    simp [cmidTruthy, hcmid]
  · -- the second, identical call: duplicate outcome, state untouched
    have hfind2 := find_conversation_map st.conversations conversation_id
      (fun c => if c.id = conversation_id then
        { c with messages_count :=
          (List.filter (fun m => decide (m.conversation_id = conversation_id))
            (create_assistant_message
              (create_user_message st conversation_id textIn audioData imageData
                (some cmid)).2 conversation_id response none "sent").2.msgs).length }
        else c)
      (fun c => by by_cases hc : c.id = conversation_id <;> simp [hc])
      (fun c => by by_cases hc : c.id = conversation_id <;> simp [hc])
      hfind
    obtain ⟨conv2, hfind2, huser2⟩ := hfind2
    have hdup : check_duplicate_message
        (update_conversation_stats
          (create_assistant_message
            (create_user_message st conversation_id textIn audioData imageData
              (some cmid)).2 conversation_id response none "sent").2 conversation_id)
        conversation_id cmid =
        some (create_user_message st conversation_id textIn audioData imageData
          (some cmid)).1 := by
      unfold check_duplicate_message at hfresh ⊢
      show List.find? _
        ((st.msgs ++ [(create_user_message st conversation_id textIn audioData
          imageData (some cmid)).1]) ++
          [(create_assistant_message
            (create_user_message st conversation_id textIn audioData imageData
              (some cmid)).2 conversation_id response none "sent").1]) = _
      rw [List.find?_append, List.find?_append, hfresh]
      simp [create_user_message, create_assistant_message, cmidTruthy, hcmid]
    unfold handle_user_message
    rw [show (update_conversation_stats
        (create_assistant_message
          (create_user_message st conversation_id textIn audioData imageData
            (some cmid)).2 conversation_id response none "sent").2
        conversation_id).conversations =
      List.map (fun c => if c.id = conversation_id then
        { c with messages_count :=
          (List.filter (fun m => decide (m.conversation_id = conversation_id))
            (create_assistant_message
              (create_user_message st conversation_id textIn audioData imageData
                (some cmid)).2 conversation_id response none "sent").2.msgs).length }
        else c) st.conversations from rfl]
    rw [hfind2]
    dsimp only
    rw [if_neg (not_not_intro (huser2.trans huser)), if_neg hcmid, hdup]

/-- C4 witness: a concrete conversation, message and client id. -/
theorem handle_user_message_idempotent_witness :
    ∃ um am st1,
      handle_user_message ⟨[⟨"c1", "u1", 0⟩], [], 0⟩ [] "c1" "u1" (some "hi")
          none none (.batch "ans") (some "m1") =
        ([], st1, [], .ok (.answered um.id am.id "ans" "c1")) ∧
      st1.msgs = (⟨[⟨"c1", "u1", 0⟩], [], 0⟩ : DBState).msgs ++ [um, am] ∧
      um.sender = "user" ∧ am.sender = "assistant" ∧
      um.message_metadata.client_message_id = some "m1" ∧
      am.message_metadata.client_message_id = none ∧
      (List.filter
        (fun m => decide (m.conversation_id = "c1") &&
          decide (m.message_metadata.client_message_id = some "m1"))
        st1.msgs).length = 1 ∧
      handle_user_message st1 [] "c1" "u1" (some "hi") none none (.batch "ans")
          (some "m1") =
        ([], st1, [], .ok (.dup um.id)) :=
  handle_user_message_idempotent ⟨[⟨"c1", "u1", 0⟩], [], 0⟩ [] "c1" "u1"
    (some "hi") none none "ans" "m1"
    ⟨⟨"c1", "u1", 0⟩, by decide, rfl⟩ (by decide) rfl

/-! ## C9 — persistence of interrupted streams -/

/-- C9 counterexample: a stream that raises before any (non-empty) chunk was
delivered persists nothing — there is no `incomplete` assistant message. -/
theorem zero_chunk_failure_not_persisted :
    (handle_streaming_response ⟨[], [], 5⟩ [] "c1" 7 [] true).2.1 =
      (⟨[], [], 5⟩ : DBState) ∧
    List.filter (fun m => decide (m.status = "incomplete"))
      ((handle_streaming_response ⟨[], [], 5⟩ [] "c1" 7 [] true).2.1).msgs = [] :=
  ⟨rfl, rfl⟩

/-- C9 (amended): when the stream raises after accumulating non-empty partial
text, the assistant message is persisted with status `incomplete` and content
equal to the partial text plus the interruption note, and the error is
re-raised. -/
theorem stream_failure_persists_partial (st : DBState) (cache : Cache)
    (conversation_id : String) (assistant_message_id : Nat) (chunks : List String)
    (h : joinChunks chunks ≠ "") :
    (handle_streaming_response st cache conversation_id assistant_message_id
        chunks true).2.1 =
      { st with msgs := st.msgs ++
          [{ id := assistant_message_id, conversation_id := conversation_id,
             sender := "assistant",
             content := joinChunks chunks ++ interruptionNote,
             status := "incomplete",
             message_metadata := { disclaimer := true } }] } ∧
    (handle_streaming_response st cache conversation_id assistant_message_id
        chunks true).2.2.2 = .error streamInterruptedError ∧
    (handle_streaming_response st cache conversation_id assistant_message_id
        chunks true).1 =
      (chunks.map fun c =>
        Frame.chunk (toString assistant_message_id) conversation_id c) ++
        [Frame.error conversation_id streamInterruptedError] := by
  unfold handle_streaming_response
  dsimp only
  rw [if_neg h]
  exact ⟨rfl, rfl, rfl⟩

/-! ## Occurrence counting (for the disclaimer claims) -/

/-- The window of length `pat.length` at position `i` of `l` equals `pat`. -/
def occursAt (l pat : List Char) (i : Nat) : Bool :=
  decide ((l.drop i).take pat.length = pat)

/-- Number of positions of `l` at which `pat` occurs. -/
def occCount (l pat : List Char) : Nat :=
  ((List.range (l.length + 1)).filter fun i => occursAt l pat i).length

/-- Occurrence count at the `String` level. -/
def occCountS (s pat : String) : Nat :=
  occCount s.data pat.data

/-- No proper nonempty shift of `pat` agrees with its own start (so an
occurrence of `pat` cannot straddle the boundary of `b ++ pat`). -/
def selfOverlapFree (pat : List Char) : Bool :=
  (List.range pat.length).all fun k =>
    decide (k = 0) || decide (pat.drop k ≠ pat.take (pat.length - k))

theorem str_data_append (a b : String) : (a ++ b).data = a.data ++ b.data := by
  cases a
  cases b
  rfl

theorem str_append_empty (s : String) : s ++ "" = s := by
  cases s with
  | mk d =>
    show String.mk (d ++ []) = String.mk d
    rw [List.append_nil]

theorem str_empty_append (s : String) : "" ++ s = s := by
  cases s with
  | mk d => rfl

theorem str_append_assoc (a b c : String) : a ++ b ++ c = a ++ (b ++ c) := by
  cases a
  cases b
  cases c
  show String.mk (_ ++ _ ++ _) = String.mk (_ ++ (_ ++ _))
  rw [List.append_assoc]

theorem joinChunks_singleton (s : String) : joinChunks [s] = s :=
  str_append_empty s

theorem joinChunks_append_singleton (l : List String) (s : String) :
    joinChunks (l ++ [s]) = joinChunks l ++ s := by
  induction l with
  | nil =>
    show joinChunks [s] = "" ++ s
    rw [joinChunks_singleton, str_empty_append]
  | cons a t ih =>
    show a ++ joinChunks (t ++ [s]) = a ++ joinChunks t ++ s
    rw [ih, str_append_assoc]

theorem filter_range_decide_eq {n N : Nat} (h : n < N) :
    ((List.range N).filter fun i => decide (i = n)).length = 1 := by
  induction N with
  | zero => omega
  | succ N ih =>
    rw [List.range_succ, List.filter_append]
    by_cases hn : n = N
    · subst hn
      have h0 : (List.range n).filter (fun i => decide (i = n)) = [] := by
        rw [List.filter_eq_nil_iff]
        intro a ha
        have := List.mem_range.1 ha
        simp only [decide_eq_true_eq]
        omega
      simp [h0]
    · have h1 : List.filter (fun i => decide (i = n)) [N] = [] := by
        simp only [List.filter, decide_eq_true_eq]
        simp [Ne.symm hn]
      rw [h1, List.append_nil]
      exact ih (by omega)

/-- Splicing a self-overlap-free pattern onto a pattern-free prefix yields
exactly one occurrence. -/
theorem occCount_append_self {b p : List Char} (hp : p ≠ [])
    (hov : selfOverlapFree p = true) (hb : occCount b p = 0) :
    occCount (b ++ p) p = 1 := by
  have hm : 0 < p.length := List.length_pos.2 hp
  have h0 : ∀ i, i < b.length + 1 → ¬ occursAt b p i = true := by
    intro i hi hocc
    have hfe : (List.range (b.length + 1)).filter (fun j => occursAt b p j) = [] :=
      List.length_eq_zero.1 hb
    exact List.filter_eq_nil_iff.1 hfe i (List.mem_range.2 hi) hocc
  have key : ∀ i ∈ List.range ((b ++ p).length + 1),
      occursAt (b ++ p) p i = decide (i = b.length) := by
    intro i hi
    have hiN : i < b.length + p.length + 1 := by
      have := List.mem_range.1 hi
      simpa [List.length_append] using this
    by_cases heq : i = b.length
    · subst heq
      have hdrop : (b ++ p).drop b.length = p := List.drop_left b p
      simp [occursAt, hdrop]
    · rw [decide_eq_false heq]
      by_contra hocc
      rw [Bool.not_eq_false] at hocc
      have hwin : ((b ++ p).drop i).take p.length = p := of_decide_eq_true hocc
      rcases Nat.lt_or_ge i b.length with hlt | hge
      · have hdrop : (b ++ p).drop i = b.drop i ++ p := by
          rw [List.drop_append_eq_append_drop, Nat.sub_eq_zero_of_le hlt.le,
            List.drop_zero]
        rw [hdrop, List.take_append_eq_append_take] at hwin
        have hlen : (b.drop i).length = b.length - i := List.length_drop i b
        rcases le_or_lt (i + p.length) b.length with hle | hgt
        · have h2 : p.length - (b.drop i).length = 0 := by
            rw [hlen]; omega
          rw [h2, List.take_zero, List.append_nil] at hwin
          exact h0 i (by omega) (by simp [occursAt, hwin])
        · have h3 : (b.drop i).take p.length = b.drop i :=
            List.take_of_length_le (by rw [hlen]; omega)
          rw [h3, hlen] at hwin
          have h5 := congrArg (List.drop (b.length - i)) hwin
          rw [List.drop_left' (by rw [hlen])] at h5
          have h6 := List.all_eq_true.1 hov (b.length - i)
            (List.mem_range.2 (by omega))
          simp only [Bool.or_eq_true, decide_eq_true_eq] at h6
          rcases h6 with h6 | h6
          · omega
          · exact h6 h5.symm
      · have hlen2 : (((b ++ p).drop i).take p.length).length < p.length := by
          rw [List.length_take, List.length_drop, List.length_append]
          omega
        rw [hwin] at hlen2
        exact absurd hlen2 (lt_irrefl _)
  unfold occCount
  rw [List.filter_congr key]
  exact filter_range_decide_eq (by rw [List.length_append]; omega)

set_option maxRecDepth 40000 in
/-- The disclaimer text cannot overlap a shifted copy of itself. -/
theorem disclaimer_selfOverlapFree : selfOverlapFree disclaimer.data = true := by
  decide

/-- An answer of the form `pre ++ disclaimer` contains the disclaimer exactly
once when `pre` contains no occurrence of it. -/
theorem occS_one_of_suffix {ans pre : String} (h : ans = pre ++ disclaimer)
    (h0 : occCountS pre disclaimer = 0) : occCountS ans disclaimer = 1 := by
  rw [h]
  unfold occCountS at h0 ⊢
  rw [str_data_append]
  exact occCount_append_self (by decide) disclaimer_selfOverlapFree h0

theorem str_append_disclaimer_ne_empty (a : String) : a ++ disclaimer ≠ "" := by
  intro h
  have h2 := congrArg String.data h
  rw [str_data_append] at h2
  exact absurd (List.append_eq_nil.1 h2).2 (by decide)

theorem safe_response_ne_empty (sev : Option Severity) :
    get_safe_response_for_blocked_content sev ≠ "" := by
  cases sev with
  | none => decide
  | some s => cases s <;> decide

/-! ## C3 — disclaimer finalization -/

/-- The input-screening verdict of the run blocks (the step-3 short-circuit
condition of both pipelines). -/
def input_blocked (env : PipelineEnv) (stats : Stats)
    (audioData imageData : Option (Except Unit String))
    (textIn : Option String) : Bool :=
  let t := pipeline_input_text textIn audioData imageData
  if strFalsy t then false
  else
    match (moderate_content env.enabled env.rules stats (t.getD "")).1.action with
    | .block => true
    | _ => false

/-- When the input is not blocked, the moderation action of the combined text
is not `block`. -/
theorem not_block_of_not_input_blocked {env : PipelineEnv} {stats : Stats}
    {audioData imageData : Option (Except Unit String)} {textIn : Option String}
    (hnb : input_blocked env stats audioData imageData textIn = false)
    (hf : ¬ strFalsy (pipeline_input_text textIn audioData imageData) = true) :
    ¬ (moderate_content env.enabled env.rules stats
        ((pipeline_input_text textIn audioData imageData).getD "")).1.action =
      .block := by
  intro hA
  unfold input_blocked at hnb
  rw [if_neg hf, hA] at hnb
  exact absurd hnb (by simp)

/-- Every batch answer whose input was not blocked is some text followed by
the disclaimer. -/
theorem process_pipeline_suffix_shape (env : PipelineEnv) (stats : Stats)
    (audioData imageData : Option (Except Unit String)) (textIn : Option String)
    (hnb : input_blocked env stats audioData imageData textIn = false) :
    ∃ pre, (process_pipeline env stats audioData imageData textIn).1 =
      pre ++ disclaimer := by
  unfold process_pipeline
  by_cases hf : strFalsy (pipeline_input_text textIn audioData imageData) = true
  · rw [if_pos hf]
    unfold handle_pipeline_error
    exact ⟨_, rfl⟩
  · rw [if_neg hf]
    dsimp only
    rw [if_neg (not_block_of_not_input_blocked hnb hf)]
    exact ⟨_, rfl⟩

/-- Every streamed answer whose input was not blocked joins to some text
followed by the disclaimer. -/
theorem process_pipeline_stream_suffix_shape (env : PipelineEnv) (stats : Stats)
    (audioData imageData : Option (Except Unit String)) (textIn : Option String)
    (hnb : input_blocked env stats audioData imageData textIn = false) :
    ∃ pre, joinChunks (process_pipeline_stream env stats audioData imageData
      textIn).1 = pre ++ disclaimer := by
  unfold process_pipeline_stream
  by_cases hf : strFalsy (pipeline_input_text textIn audioData imageData) = true
  · rw [if_pos hf]
    refine ⟨joinChunks [streamErrorApology], ?_⟩
    show joinChunks ([streamErrorApology] ++ [disclaimer]) = _
    rw [joinChunks_append_singleton]
  · rw [if_neg hf]
    dsimp only
    rw [if_neg (not_block_of_not_input_blocked hnb hf)]
    dsimp only
    rw [joinChunks_append_singleton]
    exact ⟨_, rfl⟩

/-- A fixed offline pipeline environment used for concrete runs: moderation
enabled with a high tier containing "kill myself", summarizer and retrieval
skipped, deterministic generation. -/
def envC3 : PipelineEnv :=
  { enabled := true
    rules := ⟨["kill myself"], [], [], []⟩
    skip_summarizer := true
    skip_rag := true
    rag_available := false
    summarizeCall := fun _ => .error ()
    retrieveCall := fun _ => .error ()
    generateCall := fun _ _ => .ok "Generated answer."
    generateStreamCall := fun _ _ => (["Generated ", "answer."], false) }

set_option maxRecDepth 100000 in
/-- C3 counterexample: the input-blocked turn "I want to kill myself" returns
the fixed crisis response, which contains no occurrence of the disclaimer at
all (in batch and in streaming) — so not every answer ends with it. -/
theorem blocked_response_lacks_disclaimer :
    (process_pipeline envC3 stats0 none none (some "I want to kill myself")).1 =
      get_safe_response_for_blocked_content (some .high) ∧
    occCountS (process_pipeline envC3 stats0 none none
      (some "I want to kill myself")).1 disclaimer = 0 ∧
    (process_pipeline_stream envC3 stats0 none none
      (some "I want to kill myself")).1 =
      [get_safe_response_for_blocked_content (some .high)] ∧
    occCountS (joinChunks (process_pipeline_stream envC3 stats0 none none
      (some "I want to kill myself")).1) disclaimer = 0 := by
  refine ⟨by decide, by decide, by decide, by decide⟩

/-- C3 (amended): every answer whose *input* screening did not block — batch
or streamed to completion — ends with the fixed disclaimer, and contains it
exactly once provided the text before it contains no occurrence of it;
input-blocked answers are the fixed refusal texts without the disclaimer. -/
theorem pipeline_disclaimer_suffix (env : PipelineEnv) (stats : Stats)
    (audioData imageData : Option (Except Unit String)) (textIn : Option String)
    (hnb : input_blocked env stats audioData imageData textIn = false) :
    (∃ pre, (process_pipeline env stats audioData imageData textIn).1 =
        pre ++ disclaimer ∧
      (occCountS pre disclaimer = 0 →
        occCountS (process_pipeline env stats audioData imageData textIn).1
          disclaimer = 1)) ∧
    (∃ pre, joinChunks (process_pipeline_stream env stats audioData imageData
        textIn).1 = pre ++ disclaimer ∧
      (occCountS pre disclaimer = 0 →
        occCountS (joinChunks (process_pipeline_stream env stats audioData
          imageData textIn).1) disclaimer = 1)) := by
  constructor
  · obtain ⟨pre, hpre⟩ :=
      process_pipeline_suffix_shape env stats audioData imageData textIn hnb
    exact ⟨pre, hpre, fun h0 => occS_one_of_suffix hpre h0⟩
  · obtain ⟨pre, hpre⟩ :=
      process_pipeline_stream_suffix_shape env stats audioData imageData textIn hnb
    exact ⟨pre, hpre, fun h0 => occS_one_of_suffix hpre h0⟩

/-- C3 witness: the benign turn "I have a headache" on the concrete offline
environment. -/
theorem pipeline_disclaimer_suffix_witness :
    (∃ pre, (process_pipeline envC3 stats0 none none (some "I have a headache")).1 =
        pre ++ disclaimer ∧
      (occCountS pre disclaimer = 0 →
        occCountS (process_pipeline envC3 stats0 none none
          (some "I have a headache")).1 disclaimer = 1)) ∧
    (∃ pre, joinChunks (process_pipeline_stream envC3 stats0 none none
        (some "I have a headache")).1 = pre ++ disclaimer ∧
      (occCountS pre disclaimer = 0 →
        occCountS (joinChunks (process_pipeline_stream envC3 stats0 none none
          (some "I have a headache")).1) disclaimer = 1)) :=
  pipeline_disclaimer_suffix envC3 stats0 none none (some "I have a headache")
    (by decide)

/-! ## C8 — transcription failure containment -/

/-- No batch answer is empty. -/
theorem process_pipeline_ne_empty (env : PipelineEnv) (stats : Stats)
    (audioData imageData : Option (Except Unit String)) (textIn : Option String) :
    (process_pipeline env stats audioData imageData textIn).1 ≠ "" := by
  unfold process_pipeline
  by_cases hf : strFalsy (pipeline_input_text textIn audioData imageData) = true
  · rw [if_pos hf]
    unfold handle_pipeline_error
    exact str_append_disclaimer_ne_empty _
  · rw [if_neg hf]
    dsimp only
    by_cases hb : (moderate_content env.enabled env.rules stats
        ((pipeline_input_text textIn audioData imageData).getD "")).1.action =
        .block
    · rw [if_pos hb]
      exact safe_response_ne_empty _
    · rw [if_neg hb]
      exact str_append_disclaimer_ne_empty _

/-- No streamed answer joins to the empty string. -/
theorem process_pipeline_stream_join_ne_empty (env : PipelineEnv) (stats : Stats)
    (audioData imageData : Option (Except Unit String)) (textIn : Option String) :
    joinChunks (process_pipeline_stream env stats audioData imageData textIn).1 ≠
      "" := by
  unfold process_pipeline_stream
  by_cases hf : strFalsy (pipeline_input_text textIn audioData imageData) = true
  · rw [if_pos hf]
    dsimp only
    decide
  · rw [if_neg hf]
    dsimp only
    by_cases hb : (moderate_content env.enabled env.rules stats
        ((pipeline_input_text textIn audioData imageData).getD "")).1.action =
        .block
    · rw [if_pos hb]
      dsimp only
      rw [joinChunks_singleton]
      exact safe_response_ne_empty _
    · rw [if_neg hb]
      dsimp only
      rw [joinChunks_append_singleton]
      exact str_append_disclaimer_ne_empty _

/-- C8: a transcription failure never escapes: the run equals the run on the
substituted placeholder text (all later stages execute), and both the batch
answer and the joined streamed answer are still non-empty. -/
theorem transcription_failure_contained (env : PipelineEnv) (stats : Stats)
    (imageData : Option (Except Unit String)) (textIn : Option String) :
    process_pipeline env stats (some (.error ())) imageData textIn =
      process_pipeline env stats none imageData
        (some (combine_text_inputs textIn transcriptionFailedPlaceholder)) ∧
    (process_pipeline env stats (some (.error ())) imageData textIn).1 ≠ "" ∧
    process_pipeline_stream env stats (some (.error ())) imageData textIn =
      process_pipeline_stream env stats none imageData
        (some (combine_text_inputs textIn transcriptionFailedPlaceholder)) ∧
    joinChunks (process_pipeline_stream env stats (some (.error ())) imageData
      textIn).1 ≠ "" :=
  ⟨rfl, process_pipeline_ne_empty env stats (some (.error ())) imageData textIn,
    rfl,
    process_pipeline_stream_join_ne_empty env stats (some (.error ())) imageData
      textIn⟩

/-- C9 witness: a concrete interrupted stream with two delivered chunks. -/
theorem stream_failure_persists_partial_witness :
    (handle_streaming_response ⟨[], [], 3⟩ [] "c1" 9 ["Hello, ", "world"]
        true).2.1 =
      { (⟨[], [], 3⟩ : DBState) with msgs := ([] : List Msg) ++
          [{ id := 9, conversation_id := "c1",
             sender := "assistant",
             content := joinChunks ["Hello, ", "world"] ++ interruptionNote,
             status := "incomplete",
             message_metadata := { disclaimer := true } }] } ∧
    (handle_streaming_response ⟨[], [], 3⟩ [] "c1" 9 ["Hello, ", "world"]
        true).2.2.2 = .error streamInterruptedError ∧
    (handle_streaming_response ⟨[], [], 3⟩ [] "c1" 9 ["Hello, ", "world"]
        true).1 =
      ((["Hello, ", "world"] : List String).map fun c =>
        Frame.chunk (toString 9) "c1" c) ++
        [Frame.error "c1" streamInterruptedError] :=
  stream_failure_persists_partial ⟨[], [], 3⟩ [] "c1" 9 ["Hello, ", "world"]
    (by decide)

end Veda
